import Mathlib

/-!
Verification of the rmcp-sensors tool servers.

This file shallowly embeds the tool bodies of the repository (the unified
server in `src/main.rs` and the per-sensor crates under `crates/*/src/lib.rs`;
the crate versions are textually identical to the unified ones for the tools
treated here, except where noted in a doc comment).  Each tool is modelled as
a pure function from a "snapshot" of its collaborator results (the values the
OS / library / HTTP calls returned) and its parameters to an `Outcome`.

Modelling conventions:
* Rust `u64`/`u8`/`usize` integers are `Nat`; truncating `u64` subtraction
  (`total - free`, which wraps in release builds and panics in debug builds
  when the subtrahend is larger) is modelled as truncated `Nat` subtraction,
  and every theorem whose meaning depends on that value carries the
  `free ≤ total` hypothesis under which the two agree.
* Floating point collaborator values that are only ever rendered
  (battery percentages, CPU usage strings, load averages, …) are carried as
  pre-formatted `String` fields of the snapshot; floating point values that
  are compared (`f32` CPU usage in the process sort, compared with
  `partial_cmp … unwrap_or Equal`, which on the non-NaN values produced by
  sysinfo is the usual total order) are modelled as `Nat`.
* Rust's float-to-integer `as u64` cast truncates toward zero; over the exact
  rationals this is floor division, which is how `disk_percent` and
  `mem_percent` are modelled.
* Rust `String` values are Lean `String`s; byte-indexed operations
  (`cmd_display.len()`, `&cmd_display[..200]`) are modelled on `List Char`
  with `Char.utf8Size`, including the panic of byte slicing at an index that
  is not a character boundary.
-/

deriving instance DecidableEq for Except

/-- One unit of tool output; the system only ever produces text blocks
(`Content::text` in the source). -/
inductive ContentBlock where
  | text (s : String)
deriving DecidableEq

/-- Result payload of a successful tool call (`CallToolResult` in rmcp). -/
structure CallToolResult where
  content : List ContentBlock
  isError : Bool
deriving DecidableEq

/-- `CallToolResult::success(blocks)` from the rmcp model. -/
def CallToolResult.success (blocks : List ContentBlock) : CallToolResult :=
  { content := blocks, isError := false }

/-- `McpError::internal_error(message, None)`; only the message matters to the
embedded tools. -/
structure McpError where
  message : String
deriving DecidableEq

/-- Result of evaluating a tool body: the Rust `Result<CallToolResult, McpError>`
extended with `panicked` for executions that abort with an uncaught panic
instead of returning. -/
inductive Outcome where
  | ok (r : CallToolResult)
  | err (e : McpError)
  | panicked
deriving DecidableEq

/-- A successful outcome carries exactly one content block, and it is a text
block; vacuously true for failures. -/
def single_text : Outcome → Prop
  | .ok r => ∃ s, r.content = [ContentBlock.text s]
  | .err _ => True
  | .panicked => True

/-- `format_bytes` from `rmcp-sysinfo` / `main.rs`.  The source renders
`bytes as f64 / unit as f64` with one decimal (`{:.1}`); the fractional digit
is modelled by exact tenths with floor, which only affects the rendered text,
never any branching the claims mention. -/
def format_bytes (bytes : Nat) : String :=
  let kb : Nat := 1024
  let mb : Nat := kb * 1024
  let gb : Nat := mb * 1024
  if bytes ≥ gb then
    toString (bytes * 10 / gb / 10) ++ "." ++ toString (bytes * 10 / gb % 10) ++ " GB"
  else if bytes ≥ mb then
    toString (bytes * 10 / mb / 10) ++ "." ++ toString (bytes * 10 / mb % 10) ++ " MB"
  else if bytes ≥ kb then
    toString (bytes * 10 / kb / 10) ++ "." ++ toString (bytes * 10 / kb % 10) ++ " KB"
  else
    toString bytes ++ " B"

/-- `format_duration` from `rmcp-sysinfo` / `rmcp-idle` / `main.rs` (the three
copies are textually identical). -/
def format_duration (seconds : Nat) : String :=
  if seconds < 60 then
    toString seconds ++ "s"
  else if seconds < 3600 then
    let mins := seconds / 60
    let secs := seconds % 60
    if secs = 0 then toString mins ++ "m"
    else toString mins ++ "m " ++ toString secs ++ "s"
  else
    let hours := seconds / 3600
    let mins := seconds % 3600 / 60
    if mins = 0 then toString hours ++ "h"
    else toString hours ++ "h " ++ toString mins ++ "m"

/-- A run of `n` copies of character `c` (used for Rust `{:-<50}`-style fill). -/
def char_run (c : Char) (n : Nat) : String :=
  String.mk (List.replicate n c)

/-- Left-aligned padding to width `w`, Rust `{:<w}`. -/
def lpad (s : String) (w : Nat) : String :=
  s ++ char_run ' ' (w - s.length)

/-- Zero padding to width 2, Rust `{:02}`. -/
def pad2 (n : Nat) : String :=
  if n < 10 then "0" ++ toString n else toString n

/-- A single-quote character as a string (used in formatted messages). -/
def squote : String :=
  String.mk [Char.ofNat 39]

/-! ### Idle tools (`rmcp-idle/src/lib.rs`, `main.rs`) -/

/-- Parameters of `is_idle_for`: `threshold_seconds: u64` (required). -/
structure IdleThresholdParams where
  threshold_seconds : Nat
deriving DecidableEq

/-- Body of the `get_idle_time` tool.  `idle` is the collaborator result
`UserIdle::get_time()` reduced to `.as_seconds()`. -/
def get_idle_time (idle : Except String Nat) : Outcome :=
  match idle with
  | .error e => .err { message := "Failed to get idle time: " ++ e }
  | .ok seconds =>
    let formatted := format_duration seconds
    let result := "User Idle Time:\n\n  Raw: " ++ toString seconds ++ " seconds\n  Formatted: "
      ++ formatted ++ "\n"
    .ok (CallToolResult.success [ContentBlock.text result])

/-- The verdict string of `is_idle_for`: the source computes
`is_idle = seconds >= threshold` and renders `if is_idle { "YES" } else { "NO" }`. -/
def idle_verdict (seconds threshold : Nat) : String :=
  if seconds ≥ threshold then "YES" else "NO"

/-- The full report string of `is_idle_for`. -/
def idle_check_output (seconds threshold : Nat) : String :=
  "Idle Check:\n\n  Current idle: " ++ toString seconds ++ " (" ++ format_duration seconds
    ++ ")\n  Threshold: " ++ toString threshold ++ " (" ++ format_duration threshold
    ++ ")\n  Is idle: " ++ idle_verdict seconds threshold ++ "\n"

/-- Body of the `is_idle_for` tool. -/
def is_idle_for (idle : Except String Nat) (params : IdleThresholdParams) : Outcome :=
  match idle with
  | .error e => .err { message := "Failed to get idle time: " ++ e }
  | .ok seconds =>
    .ok (CallToolResult.success
      [ContentBlock.text (idle_check_output seconds params.threshold_seconds)])

/-! ### Weather tools (`rmcp-weather/src/lib.rs`, `main.rs`)

All fields of the wttr.in JSON response are strings in the source structs,
so the response model is exact. -/

/-- `WeatherDesc` from the wttr.in response. -/
structure WeatherDesc where
  value : String
deriving DecidableEq

/-- `CurrentCondition` from the wttr.in response. -/
structure CurrentCondition where
  temp_F : String
  temp_C : String
  feels_like_f : String
  feels_like_c : String
  humidity : String
  weatherDesc : List WeatherDesc
  windspeedMiles : String
  windspeedKmph : String
  winddir16Point : String
  precipMM : String
  visibility : String
  pressure : String
  uvIndex : String
deriving DecidableEq

/-- `AreaValue` from the wttr.in response. -/
structure AreaValue where
  value : String
deriving DecidableEq

/-- `NearestArea` from the wttr.in response. -/
structure NearestArea where
  areaName : List AreaValue
  region : List AreaValue
  country : List AreaValue
deriving DecidableEq

/-- `HourlyForecast` from the wttr.in response. -/
structure HourlyForecast where
  time : String
  tempF : String
  tempC : String
  weatherDesc : List WeatherDesc
  chanceofrain : String
deriving DecidableEq

/-- `WeatherDay` from the wttr.in response. -/
structure WeatherDay where
  date : String
  maxtempF : String
  maxtempC : String
  mintempF : String
  mintempC : String
  hourly : List HourlyForecast
deriving DecidableEq

/-- `WttrResponse` from the wttr.in response. -/
structure WttrResponse where
  current_condition : List CurrentCondition
  nearest_area : List NearestArea
  weather : List WeatherDay
deriving DecidableEq

/-- `LocationParams`. -/
structure LocationParams where
  location : String
deriving DecidableEq

/-- `ForecastParams`: `days: Option<u8>`. -/
structure ForecastParams where
  location : String
  days : Option Nat
deriving DecidableEq

/-- The area header both weather tools compute:
`data.nearest_area.first().map(...).unwrap_or_else(|| location)` (the source
repeats this expression in `get_weather` and `get_forecast`). -/
def area_of (data : WttrResponse) (location : String) : String :=
  match data.nearest_area.head? with
  | some a =>
    ((a.areaName.head?.map AreaValue.value).getD "Unknown") ++ ", "
      ++ ((a.region.head?.map AreaValue.value).getD "")
  | none => location

/-- The effective day count of `get_forecast`:
`params.days.unwrap_or(3).min(3)`. -/
def effective_days (days : Option Nat) : Nat :=
  (days.getD 3).min 3

/-- `iter().step_by(3)`: keep indices 0, 3, 6, …. -/
def step_by_3 {α : Type} : List α → List α
  | [] => []
  | x :: rest => x :: step_by_3 (rest.drop 2)
termination_by l => l.length
decreasing_by
  simp only [List.length_drop, List.length_cons]
  omega

/-- Rust `str::parse::<u32>()`: all-digit strings below `2^32` parse, anything
else is an error. -/
def parse_u32 (s : String) : Option Nat :=
  match s.toNat? with
  | some n => if n < 2 ^ 32 then some n else none
  | none => none

/-- One rendered hourly line of `get_forecast`. -/
def forecast_hour_line (hour : HourlyForecast) : String :=
  let time_hr := ((parse_u32 hour.time).getD 0) / 100
  let desc := ((hour.weatherDesc.head?.map WeatherDesc.value).getD "?")
  "  " ++ pad2 time_hr ++ ":00 - " ++ hour.tempF ++ "°F, " ++ desc ++ ", "
    ++ hour.chanceofrain ++ "% rain\n"

/-- One rendered day of `get_forecast`. -/
def forecast_day_block (day : WeatherDay) : String :=
  day.date ++ ":\n  High: " ++ day.maxtempF ++ "°F / " ++ day.maxtempC ++ "°C | Low: "
    ++ day.mintempF ++ "°F / " ++ day.mintempC ++ "°C\n"
    ++ String.join ((step_by_3 day.hourly).map forecast_hour_line) ++ "\n"

/-- Body of the `get_forecast` tool.  `fetch` is the collaborator result of
`fetch_weather(&params.location)` (HTTP + JSON decode). -/
def get_forecast (fetch : Except String WttrResponse) (params : ForecastParams) : Outcome :=
  match fetch with
  | .error e => .err { message := e }
  | .ok data =>
    let days := effective_days params.days
    let area := area_of data params.location
    let output := "Forecast for " ++ area ++ " (" ++ toString days ++ " days):\n\n"
      ++ String.join ((data.weather.take days).map forecast_day_block)
    .ok (CallToolResult.success [ContentBlock.text output])

/-- Body of the `get_weather` tool. -/
def get_weather (fetch : Except String WttrResponse) (params : LocationParams) : Outcome :=
  match fetch with
  | .error e => .err { message := e }
  | .ok data =>
    match data.current_condition.head? with
    | none => .err { message := "No current conditions" }
    | some current =>
      let area := area_of data params.location
      let desc := ((current.weatherDesc.head?.map WeatherDesc.value).getD "Unknown")
      let output := "Weather for " ++ area ++ ":\nConditions: " ++ desc
        ++ "\nTemperature: " ++ current.temp_F ++ "°F / " ++ current.temp_C
        ++ "°C\nFeels like: " ++ current.feels_like_f ++ "°F / " ++ current.feels_like_c
        ++ "°C\nHumidity: " ++ current.humidity ++ "%\nWind: " ++ current.windspeedMiles
        ++ " mph " ++ current.winddir16Point ++ " (" ++ current.windspeedKmph
        ++ ")\nVisibility: " ++ current.visibility ++ " miles\nPressure: "
        ++ current.pressure ++ " mb\nUV Index: " ++ current.uvIndex
      .ok (CallToolResult.success [ContentBlock.text output])

/-! ### Process tools (`rmcp-sysinfo/src/lib.rs`; `main.rs` carries textually
identical copies of `get_system_info`, `get_disk_info` and
`get_top_processes`) -/

/-- One process of the sysinfo snapshot.  `cpu_usage` is an `f32` percentage in
the source, compared with `partial_cmp(..).unwrap_or(Equal)` and rendered with
`{:<10.1}`; it is modelled as a `Nat` (on the non-NaN values sysinfo produces
the comparator is the usual total order, and only its ordering — never its
text — is claimed). `memory` is `u64` resident bytes. -/
structure Process where
  pid : Nat
  cpu_usage : Nat
  memory : Nat
  name : String
deriving DecidableEq

/-- The descending comparison the source passes to `sort_by`:
`a` may precede `b` iff `key b ≤ key a` (that is, `b.key().cmp(&a.key())` is
not `Greater`). -/
def key_ge (key : Process → Nat) (a b : Process) : Prop :=
  key b ≤ key a

instance (key : Process → Nat) : DecidableRel (key_ge key) :=
  fun a b => Nat.decLe (key b) (key a)

instance (key : Process → Nat) : IsTotal Process (key_ge key) :=
  ⟨fun a b => Nat.le_total (key b) (key a)⟩

instance (key : Process → Nat) : IsTrans Process (key_ge key) :=
  ⟨fun _ _ _ hab hbc => Nat.le_trans hbc hab⟩

/-- The stable descending sort the tools perform (`Vec::sort_by` is a stable
sort; any stable sort with the same comparator produces the same list, so it
is modelled by insertion sort). -/
def sorted_processes (key : Process → Nat) (procs : List Process) : List Process :=
  List.insertionSort (key_ge key) procs

/-- The processes actually listed by `get_top_processes`: the sorted list
truncated by `.take(count)`. -/
def listed_processes (key : Process → Nat) (count : Nat) (procs : List Process) :
    List Process :=
  (sorted_processes key procs).take count

/-- `TopProcessesParams`: `count: Option<usize>`, `sort_by: Option<String>`. -/
structure TopProcessesParams where
  count : Option Nat
  sort_by : Option String
deriving DecidableEq

/-- `params.count.unwrap_or(10)`. -/
def effective_count (params : TopProcessesParams) : Nat :=
  params.count.getD 10

/-- `params.sort_by.unwrap_or_else(|| "cpu".to_string())`. -/
def effective_sort (params : TopProcessesParams) : String :=
  params.sort_by.getD "cpu"

/-- The sort key selected by the source's
`match sort_by.as_str() { "memory" | "mem" => …memory…, _ => …cpu… }`. -/
def sort_key_of (sort_by : String) : Process → Nat :=
  match sort_by with
  | "memory" => Process.memory
  | "mem" => Process.memory
  | _ => Process.cpu_usage

/-- The `PID CPU% Memory Name` header row (`{:<8} {:<10} {:<10} {}`). -/
def proc_header_row : String :=
  lpad "PID" 8 ++ " " ++ lpad "CPU%" 10 ++ " " ++ lpad "Memory" 10 ++ " " ++ "Name" ++ "\n"

/-- One process row (`{:<8} {:<10.1} {:<10} {}`; the one-decimal CPU rendering
is abstracted to the decimal string of the modelled `Nat`). -/
def proc_row (p : Process) : String :=
  lpad (toString p.pid) 8 ++ " " ++ lpad (toString p.cpu_usage) 10 ++ " "
    ++ lpad (format_bytes p.memory) 10 ++ " " ++ p.name ++ "\n"

/-- Body of the `get_top_processes` tool over a process snapshot
(`sys.processes().values()` in enumeration order). -/
def get_top_processes (params : TopProcessesParams) (procs : List Process) : Outcome :=
  let count := effective_count params
  let sort_by := effective_sort params
  let processes := sorted_processes (sort_key_of sort_by) procs
  let output := "Top " ++ toString count ++ " processes by " ++ sort_by ++ ":\n\n"
    ++ proc_header_row ++ char_run '-' 50 ++ "\n"
    ++ String.join ((processes.take count).map proc_row)
  .ok (CallToolResult.success [ContentBlock.text output])

/-- `FindProcessParams`: `name: String` (required). -/
structure FindProcessParams where
  name : String
deriving DecidableEq

/-- Rust `str::to_lowercase`, modelled character-wise over the character
list. -/
def lower_chars (s : String) : List Char :=
  s.toList.map Char.toLower

/-- The match list of `find_process`: case-insensitive substring filter
(`p.name().to_lowercase().contains(&search)` with
`search = params.name.to_lowercase()`), then the same stable descending CPU
sort as above. -/
def find_matches (params : FindProcessParams) (procs : List Process) : List Process :=
  let search := lower_chars params.name
  List.insertionSort (key_ge Process.cpu_usage)
    (procs.filter fun p => decide (search <:+: lower_chars p.name))

/-- The output of `find_process` when nothing matches. -/
def find_no_match_output (name : String) : String :=
  "Processes matching " ++ squote ++ name ++ squote ++ ":\n\n"
    ++ "No matching processes found.\n"

/-- The trailing text of `find_process` when more than 20 processes match:
`"... and {} more matches"` with the overflow count, then the total count. -/
def find_more_suffix (total : Nat) : String :=
  ("\n... and " ++ toString (total - 20) ++ " more matches\n")
    ++ ("\nTotal matches: " ++ toString total ++ "\n")

/-- The full output string of `find_process`. -/
def find_output (params : FindProcessParams) (procs : List Process) : String :=
  let ms := find_matches params procs
  let output := "Processes matching " ++ squote ++ params.name ++ squote ++ ":\n\n"
  if ms.isEmpty then
    output ++ "No matching processes found.\n"
  else
    (output ++ proc_header_row ++ char_run '-' 50 ++ "\n"
        ++ String.join ((ms.take 20).map proc_row))
      ++ ((if ms.length > 20 then
            "\n... and " ++ toString (ms.length - 20) ++ " more matches\n"
          else "")
        ++ ("\nTotal matches: " ++ toString ms.length ++ "\n"))

/-- Body of the `find_process` tool. -/
def find_process (params : FindProcessParams) (procs : List Process) : Outcome :=
  .ok (CallToolResult.success [ContentBlock.text (find_output params procs)])

/-- `ProcessIdParams`: `pid: u32` (required). -/
structure ProcessIdParams where
  pid : Nat
deriving DecidableEq

/-- The byte length of a Rust string (`str::len()`). -/
def byte_len (l : List Char) : Nat :=
  (l.map Char.utf8Size).sum

/-- Rust byte slicing `&s[..n]`: `some` prefix when `n` lands on a character
boundary within the string, `none` (a panic in Rust) otherwise. -/
def byte_take : List Char → Nat → Option (List Char)
  | _, 0 => some []
  | [], _ + 1 => none
  | c :: cs, n + 1 =>
    if c.utf8Size ≤ n + 1 then
      (byte_take cs (n + 1 - c.utf8Size)).map (fun l => c :: l)
    else none

/-- The `Command:` section of `get_process_details`: joins the command line
with spaces and, when longer than 200 bytes, shows `&cmd_display[..200]`
followed by `"..."` — which panics (`.error ()`) when byte 200 is not a
character boundary. -/
def cmd_section (cmd : List String) : Except Unit String :=
  if cmd.isEmpty then .ok ""
  else
    let cmd_display := String.intercalate " " cmd
    if byte_len cmd_display.toList > 200 then
      match byte_take cmd_display.toList 200 with
      | some pre => .ok ("Command: " ++ String.mk pre ++ "...\n")
      | none => .error ()
    else .ok ("Command: " ++ cmd_display ++ "\n")

/-- The per-process snapshot of `get_process_details`.  Fields that the source
only renders (`{:?}` status, `{:.1}` CPU) are carried pre-formatted. -/
structure ProcDetail where
  name : String
  status_fmt : String
  cpu_fmt : String
  memory : Nat
  virtual_memory : Nat
  parent : Option Nat
  run_time : Nat
  exe : Option String
  cwd : Option String
  cmd : List String
deriving DecidableEq

/-- Body of the `get_process_details` tool; `proc` is `sys.process(pid)`. -/
def get_process_details (params : ProcessIdParams) (proc : Option ProcDetail) : Outcome :=
  match proc with
  | none => .err { message := "Process " ++ toString params.pid ++ " not found" }
  | some proc =>
    let output := "Process Details (PID " ++ toString params.pid ++ "):\n\n"
      ++ "Name: " ++ proc.name ++ "\n"
      ++ "Status: " ++ proc.status_fmt ++ "\n"
      ++ "CPU Usage: " ++ proc.cpu_fmt ++ "%\n"
      ++ "Memory: " ++ format_bytes proc.memory ++ "\n"
      ++ "Virtual Memory: " ++ format_bytes proc.virtual_memory ++ "\n"
      ++ (match proc.parent with
          | some parent => "Parent PID: " ++ toString parent ++ "\n"
          | none => "")
      ++ "Running for: " ++ format_duration proc.run_time ++ "\n"
      ++ (match proc.exe with
          | some exe => "Executable: " ++ exe ++ "\n"
          | none => "")
      ++ (match proc.cwd with
          | some cwd => "Working Dir: " ++ cwd ++ "\n"
          | none => "")
    match cmd_section proc.cmd with
    | .ok cmd_part => .ok (CallToolResult.success [ContentBlock.text (output ++ cmd_part)])
    | .error _ => .panicked

/-- Body of the `list_processes` tool (all processes, CPU-sorted, capped at
50 with an overflow note and a total). -/
def list_processes (procs : List Process) : Outcome :=
  let processes := sorted_processes Process.cpu_usage procs
  let output := "All Running Processes:\n\n" ++ proc_header_row ++ char_run '-' 60 ++ "\n"
    ++ String.join ((processes.take 50).map proc_row)
    ++ (if processes.length > 50 then
          "\n... and " ++ toString (processes.length - 50) ++ " more processes\n"
        else "")
    ++ "\nTotal processes: " ++ toString processes.length ++ "\n"
  .ok (CallToolResult.success [ContentBlock.text output])

/-! ### Disk and system tools -/

/-- One mounted filesystem of the `Disks` snapshot. -/
structure DiskInfo where
  name : String
  file_system : String
  mount_point : String
  total_space : Nat
  available_space : Nat
deriving DecidableEq

/-- `let used = total - free;` — truncating `u64` subtraction. -/
def disk_used (total free : Nat) : Nat :=
  total - free

/-- The per-filesystem percentage of `get_disk_info`:
`if total > 0 { (used as f64 / total as f64 * 100.0) as u64 } else { 0 }`;
the `as u64` cast truncates toward zero, i.e. floor over exact arithmetic. -/
def disk_percent (total free : Nat) : Nat :=
  if total > 0 then disk_used total free * 100 / total else 0

/-- One rendered filesystem block of `get_disk_info`. -/
def disk_block (d : DiskInfo) : String :=
  d.name ++ " (" ++ d.file_system ++ ")\n  "
    ++ format_bytes (disk_used d.total_space d.available_space) ++ " / "
    ++ format_bytes d.total_space ++ " ("
    ++ toString (disk_percent d.total_space d.available_space) ++ "% used)\n  Mount: "
    ++ d.mount_point ++ "\n\n"

/-- Body of the `get_disk_info` tool over a `Disks::new_with_refreshed_list()`
snapshot. -/
def get_disk_info (disks : List DiskInfo) : Outcome :=
  .ok (CallToolResult.success
    [ContentBlock.text ("Disk Usage:\n\n" ++ String.join (disks.map disk_block))])

/-- Snapshot of `get_system_info`'s collaborators; float-valued fields that are
only rendered are pre-formatted strings. -/
structure SysSnapshot where
  cpu_count : Nat
  cpu_usage_fmt : String
  cpu_name : Option String
  total_memory : Nat
  used_memory : Nat
  total_swap : Nat
  used_swap : Nat
  disks : List DiskInfo
  uptime : Nat
  load_one_fmt : String
  load_five_fmt : String
  load_fifteen_fmt : String
deriving DecidableEq

/-- `(used as f64 / total as f64 * 100.0) as u64` of `get_system_info`:
floor over exact arithmetic when `total > 0`; when `total = 0` the division
yields NaN (cast to 0) for `used = 0` and +∞ (saturating to `u64::MAX`)
otherwise. -/
def mem_percent (used total : Nat) : Nat :=
  if total > 0 then used * 100 / total
  else if used = 0 then 0
  else 2 ^ 64 - 1

/-- Body of the `get_system_info` tool. -/
def get_system_info (snap : SysSnapshot) : Outcome :=
  let total_disk := (snap.disks.map DiskInfo.total_space).sum
  let free_disk := (snap.disks.map DiskInfo.available_space).sum
  let output := "System Information:\n\nCPU: " ++ (snap.cpu_name.getD "Unknown")
    ++ " (" ++ toString snap.cpu_count ++ " cores)\nCPU Usage: " ++ snap.cpu_usage_fmt
    ++ "%\n\nMemory: " ++ format_bytes snap.used_memory ++ " / "
    ++ format_bytes snap.total_memory ++ " ("
    ++ toString (mem_percent snap.used_memory snap.total_memory) ++ "%)\nSwap: "
    ++ format_bytes snap.used_swap ++ " / " ++ format_bytes snap.total_swap
    ++ "\n\nDisk: " ++ format_bytes free_disk ++ " / " ++ format_bytes total_disk
    ++ " free\n\nUptime: " ++ toString (snap.uptime / 3600) ++ "h "
    ++ toString (snap.uptime % 3600 / 60) ++ "m\nLoad Average: " ++ snap.load_one_fmt
    ++ " " ++ snap.load_five_fmt ++ " " ++ snap.load_fifteen_fmt ++ " (1m 5m 15m)"
  .ok (CallToolResult.success [ContentBlock.text output])

/-! ### Git tools (`rmcp-git/src/lib.rs`, `main.rs`) -/

/-- `RepoPathParams`: `path: Option<String>`. -/
structure RepoPathParams where
  path : Option String
deriving DecidableEq

/-- One entry of `repo.statuses(...)`: the path (`None` renders as `"?"`) and
the git2 status flags the source queries.  The flags are independent bits of
one bitfield; several may be set at once. -/
structure StatusEntry where
  path : Option String
  is_index_new : Bool
  is_index_modified : Bool
  is_index_deleted : Bool
  is_wt_modified : Bool
  is_wt_deleted : Bool
  is_wt_new : Bool
deriving DecidableEq

/-- The staged-bucket test of the status loop:
`status.is_index_new() || status.is_index_modified() || status.is_index_deleted()`. -/
def staged_test (e : StatusEntry) : Bool :=
  e.is_index_new || e.is_index_modified || e.is_index_deleted

/-- The modified-bucket test: `status.is_wt_modified() || status.is_wt_deleted()`. -/
def modified_test (e : StatusEntry) : Bool :=
  e.is_wt_modified || e.is_wt_deleted

/-- The untracked-bucket test: `status.is_wt_new()`. -/
def untracked_test (e : StatusEntry) : Bool :=
  e.is_wt_new

/-- `entry.path().unwrap_or("?")`. -/
def entry_path (e : StatusEntry) : String :=
  e.path.getD "?"

/-- The status-bucketing loop of `get_status`: one pass over the entries,
pushing each entry's path onto every bucket whose test holds (the three `if`s
in the source are independent, not an `if`/`else` chain).  Pushing at the back
while walking front-to-back equals this right fold. -/
def classify_statuses : List StatusEntry → List String × List String × List String
  | [] => ([], [], [])
  | entry :: rest =>
    let (staged, modified, untracked) := classify_statuses rest
    ((if staged_test entry then entry_path entry :: staged else staged),
     (if modified_test entry then entry_path entry :: modified else modified),
     (if untracked_test entry then entry_path entry :: untracked else untracked))

/-- One rendered bucket of `get_status` (the source repeats this block for
`("Staged", "+")`, `("Modified", "M")` and `("Untracked", "?")`): header with
the count, first 5 paths, and an `... and N more` overflow line. -/
def render_bucket (label marker : String) (files : List String) : String :=
  if files.isEmpty then ""
  else
    "  " ++ label ++ ": " ++ toString files.length ++ " file(s)\n"
      ++ String.join ((files.take 5).map fun f => "    " ++ marker ++ " " ++ f ++ "\n")
      ++ (if files.length > 5 then
            "    ... and " ++ toString (files.length - 5) ++ " more\n"
          else "")

/-- The last-commit data `get_status` renders; `short_id` stands for
`&commit.id().to_string()[..7]` (a git object id renders as 40 hex characters,
so that byte slice is total) and `timestamp` for the chrono-formatted date. -/
structure CommitInfo where
  short_id : String
  summary : Option String
  author_name : Option String
  timestamp : Option String
deriving DecidableEq

/-- The `repo.head()` data of `get_status`. -/
structure HeadInfo where
  shorthand : Option String
  commit : Except Unit CommitInfo
deriving DecidableEq

/-- The repository snapshot of `get_status`. -/
structure RepoSnapshot where
  workdir : Option String
  head : Except Unit HeadInfo
  statuses : Except String (List StatusEntry)
deriving DecidableEq

/-- The `Working Tree:` section of `get_status` for a given status list. -/
def working_tree_section (statuses : List StatusEntry) : String :=
  let (staged, modified, untracked) := classify_statuses statuses
  "\nWorking Tree:\n"
    ++ (if staged.isEmpty && modified.isEmpty && untracked.isEmpty then
          "  Clean - nothing to commit\n"
        else
          render_bucket "Staged" "+" staged
            ++ render_bucket "Modified" "M" modified
            ++ render_bucket "Untracked" "?" untracked)

/-- Body of the `get_status` tool; `repo` is the result of
`Self::get_repo(params.path)` (repository discovery). -/
def get_status (repo : Except String RepoSnapshot) : Outcome :=
  match repo with
  | .error e => .err { message := "Not a git repository: " ++ e }
  | .ok repo =>
    let result := "Git Repository Status:\n\n"
      ++ (match repo.workdir with
          | some w => "Repository: " ++ w ++ "\n"
          | none => "")
      ++ (match repo.head with
          | .ok head =>
            (match head.shorthand with
             | some n => "Branch: " ++ n ++ "\n"
             | none => "")
              ++ (match head.commit with
                  | .ok c =>
                    "\nLast Commit:\n  " ++ c.short_id ++ " - " ++ (c.summary.getD "(no message)")
                      ++ "\n  Author: " ++ (c.author_name.getD "unknown")
                      ++ "\n  Date: " ++ (c.timestamp.getD "unknown") ++ "\n"
                  | .error _ => "")
          | .error _ => "Branch: (no commits yet)\n")
      ++ (match repo.statuses with
          | .ok statuses => working_tree_section statuses
          | .error e => "\nCould not get status: " ++ e ++ "\n")
    .ok (CallToolResult.success [ContentBlock.text result])

/-- One commit of the `get_log` walk. -/
structure LogEntry where
  short_id : String
  summary : Option String
  author_name : Option String
deriving DecidableEq

/-- The revwalk of `get_log` after a successful `revwalk()`: the `push(oid)`
result and the walked entries.  Each entry is `none` when the walk yielded
`Err`, `some none` when `find_commit` failed, else the commit. -/
structure LogWalk where
  push : Except String Unit
  entries : List (Option (Option LogEntry))
deriving DecidableEq

/-- The HEAD data of `get_log`: whether `head.target()` is `Some`, and the
`repo.revwalk()` result. -/
structure LogHead where
  has_target : Bool
  revwalk : Except String LogWalk
deriving DecidableEq

/-- The repository snapshot of `get_log`. -/
structure LogSnapshot where
  head : Except String LogHead
deriving DecidableEq

/-- Body of the `get_log` tool. -/
def get_log (repo : Except String LogSnapshot) : Outcome :=
  match repo with
  | .error e => .err { message := "Not a git repository: " ++ e }
  | .ok snap =>
    match snap.head with
    | .error e => .err { message := "No HEAD: " ++ e }
    | .ok head =>
      if !head.has_target then .err { message := "HEAD has no target" }
      else
        match head.revwalk with
        | .error e => .err { message := "Failed to create revwalk: " ++ e }
        | .ok walk =>
          match walk.push with
          | .error e => .err { message := "Failed to push HEAD: " ++ e }
          | .ok _ =>
            let shown := (walk.entries.take 10).filterMap id |>.filterMap id
            let body := String.join (shown.map fun c =>
              c.short_id ++ " " ++ (c.author_name.getD "unknown") ++ " - "
                ++ (c.summary.getD "(no message)") ++ "\n")
            let result := "Recent Commits:\n\n" ++ body
              ++ (if shown.isEmpty then "No commits found.\n" else "")
            .ok (CallToolResult.success [ContentBlock.text result])

/-! ### Battery tool (`rmcp-battery/src/lib.rs`, `main.rs`; the crate version
returns the empty-state result early, the unified version via `if`/`else` —
same outcome). -/

/-- `battery::State`. -/
inductive BatteryState where
  | charging
  | discharging
  | empty
  | full
  | unknown
  | other
deriving DecidableEq

/-- `battery_state_to_string` / `state_to_string`. -/
def battery_state_to_string : BatteryState → String
  | .charging => "Charging"
  | .discharging => "Discharging"
  | .empty => "Empty"
  | .full => "Full"
  | .unknown => "Unknown"
  | .other => "Unknown"

/-- One battery of the snapshot; all float readings are pre-formatted. -/
structure BatteryInfo where
  charge_fmt : String
  state : BatteryState
  energy_fmt : String
  energy_full_fmt : String
  time_to_full_fmt : Option String
  time_to_empty_fmt : Option String
  health_fmt : String
  temperature_fmt : Option String
deriving DecidableEq

/-- The collaborator snapshot of `get_battery_status`: the `Manager::new()`
result and the `manager.batteries()` iterator, whose items are individually
fallible and filtered by `filter_map(|b| b.ok())`. -/
structure BatterySnapshot where
  manager : Except String Unit
  batteries : Except String (List (Except String BatteryInfo))
deriving DecidableEq

/-- One rendered battery block (1-based index `i`). -/
def battery_block (i : Nat) (b : BatteryInfo) : String :=
  "Battery " ++ toString (i + 1) ++ ":\n"
    ++ "  Charge: " ++ b.charge_fmt ++ "%\n"
    ++ "  State: " ++ battery_state_to_string b.state ++ "\n"
    ++ "  Energy: " ++ b.energy_fmt ++ " / " ++ b.energy_full_fmt ++ " Wh\n"
    ++ (match b.time_to_full_fmt with
        | some t => "  Time to full: " ++ t ++ " minutes\n"
        | none => "")
    ++ (match b.time_to_empty_fmt with
        | some t => "  Time to empty: " ++ t ++ " minutes\n"
        | none => "")
    ++ "  Health: " ++ b.health_fmt ++ "%\n"
    ++ (match b.temperature_fmt with
        | some t => "  Temperature: " ++ t ++ "°C\n"
        | none => "")
    ++ "\n"

/-- The fixed empty-state message of `get_battery_status`. -/
def battery_empty_output : String :=
  "Battery Status:\n\nNo batteries detected.\n(This is normal for desktop computers without UPS)\n"

/-- Body of the `get_battery_status` tool. -/
def get_battery_status (snap : BatterySnapshot) : Outcome :=
  match snap.manager with
  | .error e => .err { message := "Failed to create battery manager: " ++ e }
  | .ok _ =>
    match snap.batteries with
    | .error e => .err { message := "Failed to get batteries: " ++ e }
    | .ok iter =>
      let batteries := iter.filterMap Except.toOption
      if batteries.isEmpty then
        .ok (CallToolResult.success [ContentBlock.text battery_empty_output])
      else
        let body := String.join (batteries.enum.map fun p => battery_block p.1 p.2)
        .ok (CallToolResult.success [ContentBlock.text
          ("Battery Status:\n\n" ++ body ++ "Total batteries: "
            ++ toString batteries.length ++ "\n")])

/-! ### Display tool (`rmcp-display/src/lib.rs`; `main.rs` inlines the same
formatting minus the rotation line). -/

/-- One display of the `DisplayInfo::all()` snapshot; float fields
(`frequency`, `scale_factor`, `rotation`, the computed diagonal) are carried
as the Boolean branch conditions the source tests plus pre-formatted text. -/
structure DisplayEntry where
  name : String
  friendly_name : String
  is_primary : Bool
  width : Nat
  height : Nat
  x : Int
  y : Int
  width_mm : Nat
  height_mm : Nat
  diag_fmt : String
  frequency_pos : Bool
  frequency_fmt : String
  scale_not_one : Bool
  scale_fmt : String
  rotation_nonzero : Bool
  rotation_fmt : String
deriving DecidableEq

/-- One rendered display block (1-based index `i`). -/
def display_block (i : Nat) (d : DisplayEntry) : String :=
  "Display " ++ toString (i + 1) ++ ": "
    ++ (if d.friendly_name.isEmpty then d.name else d.friendly_name)
    ++ (if d.is_primary then " (primary)" else "") ++ "\n"
    ++ "  Resolution: " ++ toString d.width ++ "x" ++ toString d.height ++ "\n"
    ++ "  Position: (" ++ toString d.x ++ ", " ++ toString d.y ++ ")\n"
    ++ (if d.width_mm > 0 && d.height_mm > 0 then
          "  Physical: " ++ toString d.width_mm ++ "mm x " ++ toString d.height_mm
            ++ "mm (~" ++ d.diag_fmt ++ "\")\n"
        else "")
    ++ (if d.frequency_pos then "  Refresh: " ++ d.frequency_fmt ++ "Hz\n" else "")
    ++ (if d.scale_not_one then "  Scale: " ++ d.scale_fmt ++ "%\n" else "")
    ++ (if d.rotation_nonzero then "  Rotation: " ++ d.rotation_fmt ++ "°\n" else "")
    ++ "\n"

/-- `format_display_info` from `rmcp-display/src/lib.rs`. -/
def format_display_info (displays : List DisplayEntry) : String :=
  if displays.isEmpty then
    "Display Information:\n\nNo displays detected.\n"
  else
    "Display Information:\n\n"
      ++ String.join (displays.enum.map fun p => display_block p.1 p.2)
      ++ "Total displays: " ++ toString displays.length ++ "\n"

/-- Body of the `get_display_info` tool; `displays` is `DisplayInfo::all()`. -/
def get_display_info (displays : Except String (List DisplayEntry)) : Outcome :=
  match displays with
  | .error e => .err { message := "Failed to get display info: " ++ e }
  | .ok ds =>
    .ok (CallToolResult.success [ContentBlock.text (format_display_info ds)])

/-! ### Network tool (`rmcp-network/src/lib.rs`, `main.rs`) -/

/-- One address of a network interface; the `is_loopback()` test on the parsed
IP is carried as a Boolean. -/
inductive NetAddr where
  | v4 (ip : String) (loopback : Bool) (netmask : Option String)
  | v6 (ip : String) (loopback : Bool)
deriving DecidableEq

/-- One `NetworkInterface` of the snapshot. -/
structure NetInterface where
  name : String
  mac_addr : Option String
  addr : List NetAddr
deriving DecidableEq

/-- The loopback test of the rendering loop:
`iface.addr.iter().any(|a| a.ip().is_loopback())`. -/
def addr_loopback : NetAddr → Bool
  | .v4 _ lb _ => lb
  | .v6 _ lb => lb

/-- One rendered address line. -/
def addr_line : NetAddr → String
  | .v4 ip _ netmask =>
    "  IPv4: " ++ ip
      ++ (match netmask with
          | some m => " / " ++ m
          | none => "") ++ "\n"
  | .v6 ip _ =>
    if ip.startsWith "fe80" then "" else "  IPv6: " ++ ip ++ "\n"

/-- One rendered interface block. -/
def iface_block (iface : NetInterface) : String :=
  iface.name ++ (if iface.addr.any addr_loopback then " (loopback)" else "") ++ "\n"
    ++ (match iface.mac_addr with
        | some mac =>
          if !mac.isEmpty && mac ≠ "00:00:00:00:00:00" then "  MAC: " ++ mac ++ "\n" else ""
        | none => "")
    ++ String.join (iface.addr.map addr_line)
    ++ "\n"

/-- Body of the `get_interfaces` tool; the snapshot is
`NetworkInterface::show()`. -/
def get_interfaces (interfaces : Except String (List NetInterface)) : Outcome :=
  match interfaces with
  | .error e => .err { message := "Failed to get network interfaces: " ++ e }
  | .ok ifaces =>
    let result := "Network Interfaces:\n\n"
      ++ (if ifaces.isEmpty then "No network interfaces found.\n"
          else
            String.join (ifaces.map iface_block)
              ++ "Total interfaces: " ++ toString ifaces.length ++ " ("
              ++ toString (ifaces.filter fun i => !i.addr.isEmpty).length
              ++ " with addresses)\n")
    .ok (CallToolResult.success [ContentBlock.text result])

/-! ### USB tool (`rmcp-usb/src/lib.rs`, `main.rs`) -/

/-- Lowercase hexadecimal digit. -/
def hex_digit (n : Nat) : Char :=
  if n < 10 then Char.ofNat (48 + n) else Char.ofNat (87 + n)

/-- Rust `{:04x}` rendering of a `u16` id (always exactly four digits for
values below `2^16`). -/
def hex4 (n : Nat) : String :=
  String.mk [hex_digit (n / 4096 % 16), hex_digit (n / 256 % 16),
    hex_digit (n / 16 % 16), hex_digit (n % 16)]

/-- One USB device of the `list_devices()` snapshot; the optional descriptor
strings are already `unwrap_or_default()`-ed to `""` by the source. -/
structure UsbDevice where
  manufacturer : String
  product : String
  serial : String
  vendor_id : Nat
  product_id : Nat
  bus_number : Nat
  device_address : Nat
deriving DecidableEq

/-- One rendered USB device block (1-based count `i`). -/
def usb_block (i : Nat) (d : UsbDevice) : String :=
  let display_name :=
    if !d.product.isEmpty then d.product
    else "Device " ++ hex4 d.vendor_id ++ ":" ++ hex4 d.product_id
  toString (i + 1) ++ ". " ++ display_name ++ "\n"
    ++ (if !d.manufacturer.isEmpty then "   Manufacturer: " ++ d.manufacturer ++ "\n" else "")
    ++ "   Vendor ID: " ++ hex4 d.vendor_id ++ ", Product ID: " ++ hex4 d.product_id ++ "\n"
    ++ (if !d.serial.isEmpty then "   Serial: " ++ d.serial ++ "\n" else "")
    ++ "   Bus: " ++ toString d.bus_number ++ ", Device: " ++ toString d.device_address
    ++ "\n\n"

/-- Body of the `get_usb_devices` tool. -/
def get_usb_devices (devices : Except String (List UsbDevice)) : Outcome :=
  match devices with
  | .error e => .err { message := "Failed to list USB devices: " ++ e }
  | .ok devs =>
    let result := "USB Devices:\n\n"
      ++ String.join (devs.enum.map fun p => usb_block p.1 p.2)
      ++ (if devs.length = 0 then "No USB devices found.\n"
          else "Total: " ++ toString devs.length ++ " USB devices\n")
    .ok (CallToolResult.success [ContentBlock.text result])

/-! ### Bluetooth tool (`main.rs`; `rmcp-bluetooth/src/lib.rs` is the same
scan with the same outcome shape) -/

/-- Peripheral properties (`local_name`, `address`, `rssi: Option<i16>`). -/
structure BleProps where
  local_name : Option String
  address : String
  rssi : Option Int
deriving DecidableEq

/-- One discovered peripheral; `properties()` may fail or be empty
(`.ok().flatten()`). -/
structure BlePeripheral where
  properties : Option BleProps
deriving DecidableEq

/-- One adapter of the scan snapshot. -/
structure BleAdapter where
  adapter_info : Except String String
  scan_start : Except String Unit
  peripherals : Except String (List BlePeripheral)
deriving DecidableEq

/-- The scan snapshot: the manager and adapter enumeration results. -/
structure BleSnapshot where
  manager : Except String Unit
  adapters : Except String (List BleAdapter)
deriving DecidableEq

/-- One rendered peripheral (1-based count `i`). -/
def ble_peripheral_block (i : Nat) (p : BlePeripheral) : String :=
  let name := ((p.properties.bind BleProps.local_name).getD "Unknown")
  let address := ((p.properties.map BleProps.address).getD "??:??:??:??:??:??")
  let rssi :=
    match p.properties.bind BleProps.rssi with
    | some r => " (" ++ toString r ++ "dBm)"
    | none => ""
  "  " ++ toString (i + 1) ++ ". " ++ name ++ rssi ++ "\n     Address: " ++ address ++ "\n"

/-- The per-adapter loop of `scan_ble_devices`; a failed `peripherals()` call
aborts the whole tool through `?`, every other failure only annotates the
accumulated report. -/
def scan_adapters : List BleAdapter → String → Except McpError String
  | [], acc => .ok acc
  | adapter :: rest, acc =>
    let info :=
      match adapter.adapter_info with
      | .ok s => s
      | .error _ => "Unknown adapter"
    let acc := acc ++ "Adapter: " ++ info ++ "\n\n"
    match adapter.scan_start with
    | .error e => scan_adapters rest (acc ++ "  Could not scan: " ++ e ++ "\n")
    | .ok _ =>
      match adapter.peripherals with
      | .error e => .error { message := "Failed to get peripherals: " ++ e }
      | .ok ps =>
        if ps.isEmpty then scan_adapters rest (acc ++ "  No BLE devices found nearby.\n")
        else
          scan_adapters rest
            (acc ++ String.join (ps.enum.map fun p => ble_peripheral_block p.1 p.2)
              ++ "\n  Total: " ++ toString ps.length ++ " BLE devices\n")

/-- Body of the `scan_ble_devices` tool. -/
def scan_ble_devices (snap : BleSnapshot) : Outcome :=
  match snap.manager with
  | .error e => .err { message := "Failed to create BT manager: " ++ e }
  | .ok _ =>
    match snap.adapters with
    | .error e => .err { message := "Failed to get adapters: " ++ e }
    | .ok adapters =>
      if adapters.isEmpty then
        .ok (CallToolResult.success
          [ContentBlock.text "Bluetooth Status:\n\nNo Bluetooth adapters found.\n"])
      else
        match scan_adapters adapters "Bluetooth Devices:\n\n" with
        | .ok out => .ok (CallToolResult.success [ContentBlock.text out])
        | .error e => .err e

/-! ### Spec-side definitions and helpers for the theorems -/

/-- Round-to-nearest of `used/total*100` — the formula the specification
ascribes to `get_disk_info` ("rounded to the nearest integer"), written over
`Nat` as `⌊(used*100 + total/2) / total⌋`. -/
def percent_round_nearest (total free : Nat) : Nat :=
  (disk_used total free * 100 * 2 + total) / (2 * total)

/-- `s` ends with `sfx` (on the underlying character lists). -/
def str_ends_with (s sfx : String) : Prop :=
  sfx.data <:+ s.data

theorem str_ends_with_append (a b : String) : str_ends_with (a ++ b) b := by
  simp [str_ends_with, String.data_append]

/-- Two elements surviving the `key = k` filter are mutually `key_ge`-related. -/
theorem pairwise_filter_key (key : Process → Nat) (k : Nat) (l : List Process) :
    (l.filter fun p => key p == k).Pairwise (key_ge key) := by
  induction l with
  | nil => simp
  | cons a t ih =>
    rw [List.filter_cons]
    split
    · rename_i h
      refine List.pairwise_cons.mpr ⟨fun b hb => ?_, ih⟩
      have hb' := (List.mem_filter.mp hb).2
      have ha : key a = k := by simpa using h
      have hbk : key b = k := by simpa using hb'
      simp [key_ge, ha, hbk]
    · exact ih

/-- Stability of the embedded sort: the sublist of processes with any fixed
key value is unchanged by `sorted_processes`. -/
theorem sorted_processes_stable (key : Process → Nat) (procs : List Process) (k : Nat) :
    (sorted_processes key procs).filter (fun p => key p == k)
      = procs.filter (fun p => key p == k) := by
  have hsub : (procs.filter fun p => key p == k).Sublist (sorted_processes key procs) :=
    List.sublist_insertionSort (pairwise_filter_key key k procs) (List.filter_sublist procs)
  have hsub2 := hsub.filter (fun p => key p == k)
  rw [List.filter_eq_self.mpr (fun a ha => (List.mem_filter.mp ha).2)] at hsub2
  have hperm : ((sorted_processes key procs).filter fun p => key p == k).Perm
      (procs.filter fun p => key p == k) :=
    (List.perm_insertionSort _ procs).filter _
  exact (hsub2.eq_of_length hperm.length_eq.symm).symm

/-! ### Claim theorems -/

/-- C1 counterexample: a status entry whose git2 flags have both
`INDEX_MODIFIED` and `WT_MODIFIED` set (a file staged and then modified again
— an ordinary state) is placed in the staged bucket *and* in the modified
bucket by `get_status`, refuting "every changed path … appears in at most one
of the staged, modified, and untracked lists". -/
theorem status_bucket_counterexample :
    "f" ∈ (classify_statuses [⟨some "f", false, true, false, true, false, false⟩]).1
      ∧ "f" ∈ (classify_statuses [⟨some "f", false, true, false, true, false, false⟩]).2.1 := by
  decide

/-- C1 (amended): the status loop of `get_status` classifies independently,
not by precedence: each bucket is exactly the filter of the entries by its own
flag test (staged ⇔ index new/modified/deleted, modified ⇔ worktree
modified/deleted, untracked ⇔ worktree new), so an entry with several flag
groups set appears in several buckets and one with none of them in none. -/
theorem status_buckets_amended :
    ∀ entries : List StatusEntry,
      (classify_statuses entries).1 = (entries.filter staged_test).map entry_path
        ∧ (classify_statuses entries).2.1 = (entries.filter modified_test).map entry_path
        ∧ (classify_statuses entries).2.2 = (entries.filter untracked_test).map entry_path := by
  intro entries
  induction entries with
  | nil => exact ⟨rfl, rfl, rfl⟩
  | cons e rest ih =>
    obtain ⟨h1, h2, h3⟩ := ih
    refine ⟨?_, ?_, ?_⟩
    · by_cases hb : staged_test e <;>
        simp [classify_statuses, List.filter_cons, hb, h1]
    · by_cases hb : modified_test e <;>
        simp [classify_statuses, List.filter_cons, hb, h2]
    · by_cases hb : untracked_test e <;>
        simp [classify_statuses, List.filter_cons, hb, h3]

/-- C2 counterexample: `get_forecast` computes `days.unwrap_or(3).min(3)` with
no lower clamp, so a requested day count of 0 yields 0 days, not the
`max 1 (min 0 3) = 1` the claim states. -/
theorem forecast_clamp_counterexample :
    effective_days (some 0) ≠ max 1 (min 0 3) := by
  decide

/-- C2 (amended): the requested day count is clamped above to 3 but not
below: the effective count is `min d 3`, an omitted count defaults to 3, and
requests of 0, 1, 5 yield 0, 1, 3 days respectively. -/
theorem forecast_clamp_amended :
    (∀ d, effective_days (some d) = min d 3)
      ∧ effective_days none = 3
      ∧ effective_days (some 0) = 0
      ∧ effective_days (some 1) = 1
      ∧ effective_days (some 5) = 3 := by
  exact ⟨fun d => rfl, rfl, rfl, rfl, rfl⟩

/-- C3 counterexample: the `as u64` cast in `get_disk_info` truncates toward
zero rather than rounding to nearest: with total 3 and free 1 (used 2,
exact percentage 66.67) the code reports 66 while round-to-nearest is 67. -/
theorem disk_percent_counterexample :
    disk_percent 3 1 = 66 ∧ percent_round_nearest 3 1 = 67
      ∧ disk_percent 3 1 ≠ percent_round_nearest 3 1 := by
  decide

/-- C3 (amended): the per-filesystem usage percentage of `get_disk_info` is
`used/total*100` truncated (floored), 0 when the total is 0, and bounded by
100 for every filesystem whose available space does not exceed its total. -/
theorem disk_percent_amended :
    (∀ total free : Nat, free ≤ total → disk_percent total free ≤ 100)
      ∧ (∀ free, disk_percent 0 free = 0)
      ∧ disk_percent 3 1 = 66 := by
  refine ⟨?_, fun free => rfl, by decide⟩
  intro total free _
  unfold disk_percent disk_used
  split
  · rename_i ht
    calc (total - free) * 100 / total
        ≤ total * 100 / total :=
          Nat.div_le_div_right (Nat.mul_le_mul_right _ (Nat.sub_le _ _))
      _ = 100 := Nat.mul_div_cancel_left 100 ht
  · exact Nat.zero_le 100

/-- C3 witness. -/
theorem disk_percent_amended_witness :
    disk_percent 4 1 ≤ 100 ∧ disk_percent 0 7 = 0 :=
  ⟨disk_percent_amended.1 4 1 (by decide), disk_percent_amended.2.1 7⟩

/-- C5: the idle comparison of `is_idle_for` is inclusive: on a measured idle
time of `seconds` the tool succeeds with the report built from
`idle_verdict`, and the verdict is `YES` exactly when `seconds ≥ threshold`;
in particular 300/300 is idle and 299/300 is not. -/
theorem is_idle_for_inclusive :
    ∀ seconds threshold : Nat,
      (is_idle_for (.ok seconds) ⟨threshold⟩ =
          .ok (CallToolResult.success
            [ContentBlock.text (idle_check_output seconds threshold)]))
        ∧ (idle_verdict seconds threshold = "YES" ↔ seconds ≥ threshold)
        ∧ idle_verdict 300 300 = "YES"
        ∧ idle_verdict 299 300 = "NO" := by
  intro s t
  refine ⟨rfl, ?_, by decide, by decide⟩
  unfold idle_verdict
  split
  · rename_i h
    exact iff_of_true rfl h
  · rename_i h
    exact iff_of_false (by decide) h

/-- C8: absent optional data is an empty-but-successful result: with zero
batteries `get_battery_status` succeeds with the no-battery message, and with
zero displays `get_display_info` succeeds with the no-display message. -/
theorem empty_state_success :
    get_battery_status ⟨.ok (), .ok []⟩ =
        .ok (CallToolResult.success [ContentBlock.text battery_empty_output])
      ∧ battery_empty_output =
          "Battery Status:\n\nNo batteries detected.\n(This is normal for desktop computers without UPS)\n"
      ∧ format_display_info [] = "Display Information:\n\nNo displays detected.\n"
      ∧ get_display_info (.ok []) =
          .ok (CallToolResult.success
            [ContentBlock.text "Display Information:\n\nNo displays detected.\n"]) := by
  exact ⟨rfl, rfl, rfl, rfl⟩

/-- C9: `get_top_processes` never fails validation: every call succeeds, an
absent `count` defaults to 10, an absent `sort_by` defaults to `"cpu"`, and
every `sort_by` other than `"memory"`/`"mem"` selects the CPU key. -/
theorem top_processes_lenient_defaults :
    (∀ params procs, ∃ s,
        get_top_processes params procs =
          .ok (CallToolResult.success [ContentBlock.text s]))
      ∧ (∀ sb, effective_count ⟨none, sb⟩ = 10)
      ∧ (∀ c, effective_sort ⟨c, none⟩ = "cpu")
      ∧ (∀ s, sort_key_of s =
          if s = "memory" ∨ s = "mem" then Process.memory else Process.cpu_usage) := by
  refine ⟨fun params procs => ⟨_, rfl⟩, fun sb => rfl, fun c => rfl, fun s => ?_⟩
  by_cases h1 : s = "memory"
  · subst h1
    rw [if_pos (Or.inl rfl)]
    rfl
  · by_cases h2 : s = "mem"
    · subst h2
      rw [if_pos (Or.inr rfl)]
      rfl
    · rw [if_neg (by simp [h1, h2])]
      unfold sort_key_of
      split
      · exact absurd rfl h1
      · exact absurd rfl h2
      · rfl

/-- C4: the listing of `get_top_processes` has length `min count total`, is
descending in the requested key (both for the CPU and the memory key), and is
stable: the sublist of processes sharing any key value keeps the underlying
enumeration order. -/
theorem top_processes_sorted :
    ∀ (key : Process → Nat) (count : Nat) (procs : List Process),
      (listed_processes key count procs).length = min count procs.length
        ∧ (sorted_processes key procs).Sorted (key_ge key)
        ∧ (listed_processes key count procs).Sorted (key_ge key)
        ∧ (∀ k, (sorted_processes key procs).filter (fun p => key p == k)
            = procs.filter (fun p => key p == k))
        ∧ sort_key_of "cpu" = Process.cpu_usage
        ∧ sort_key_of "memory" = Process.memory
        ∧ sort_key_of "mem" = Process.memory := by
  intro key count procs
  refine ⟨?_, List.sorted_insertionSort _ procs, ?_, sorted_processes_stable key procs,
    rfl, rfl, rfl⟩
  · simp [listed_processes, sorted_processes, List.length_take,
      List.length_insertionSort]
  · exact List.Pairwise.sublist (List.take_sublist count _)
      (List.sorted_insertionSort _ procs)

set_option maxRecDepth 40000 in
/-- C6: the `Command:` truncation of `get_process_details` slices the joined
command line at byte 200 (`&cmd_display[..200]`), which panics when byte 200
is not a character boundary: on a command line of 199 ASCII bytes followed by
a two-byte character the tool body aborts instead of returning a structured
result. -/
theorem process_details_truncation_panics :
    get_process_details ⟨4242⟩
        (some ⟨"proc", "Run", "0.0", 0, 0, none, 0, none, none,
          [String.mk (List.replicate 199 'a') ++ "é"]⟩) = .panicked := by
  decide

/-- C10: `find_process` matches by case-insensitive substring containment on
the process name; an empty match list still succeeds with the
`No matching processes found.` report; at most 20 matches are listed
(`min 20 total`); and when more than 20 match, the output ends with
`... and (total − 20) more matches` followed by the exact total. -/
theorem find_process_bounded :
    ∀ (params : FindProcessParams) (procs : List Process),
      (∀ p, p ∈ find_matches params procs ↔
          p ∈ procs ∧ lower_chars params.name <:+: lower_chars p.name)
        ∧ (find_matches params procs = [] →
            find_output params procs = find_no_match_output params.name)
        ∧ ((find_matches params procs).take 20).length =
            min 20 (find_matches params procs).length
        ∧ ((find_matches params procs).length > 20 →
            str_ends_with (find_output params procs)
              (find_more_suffix (find_matches params procs).length))
        ∧ find_process params procs =
            .ok (CallToolResult.success [ContentBlock.text (find_output params procs)]) := by
  intro params procs
  refine ⟨?_, ?_, by simp [List.length_take], ?_, rfl⟩
  · intro p
    unfold find_matches
    rw [(List.perm_insertionSort _ _).mem_iff, List.mem_filter]
    simp
  · intro h
    simp only [find_output, h, List.isEmpty_nil, if_true]
    rfl
  · intro h
    have hne : (find_matches params procs).isEmpty = false := by
      cases hm : find_matches params procs with
      | nil => rw [hm] at h; simp at h
      | cons a t => simp
    simp only [find_output, hne, Bool.false_eq_true, if_false, if_pos h]
    exact str_ends_with_append _ _

/-- C10 witness. -/
theorem find_process_bounded_witness :
    (find_output ⟨"b"⟩ [⟨1, 0, 0, "a"⟩] = find_no_match_output "b")
      ∧ str_ends_with (find_output ⟨"a"⟩ (List.replicate 21 ⟨1, 0, 0, "a"⟩))
          (find_more_suffix (find_matches ⟨"a"⟩ (List.replicate 21 ⟨1, 0, 0, "a"⟩)).length) :=
  ⟨(find_process_bounded ⟨"b"⟩ [⟨1, 0, 0, "a"⟩]).2.1 (by decide),
   (find_process_bounded ⟨"a"⟩ (List.replicate 21 ⟨1, 0, 0, "a"⟩)).2.2.2.1 (by decide)⟩

/-- C7: every tool of the system, on every input on which it succeeds,
returns exactly one content block, and it is a text block. -/
theorem success_single_text_block :
    (∀ displays, single_text (get_display_info displays))
      ∧ (∀ idle, single_text (get_idle_time idle))
      ∧ (∀ idle params, single_text (is_idle_for idle params))
      ∧ (∀ ifaces, single_text (get_interfaces ifaces))
      ∧ (∀ devs, single_text (get_usb_devices devs))
      ∧ (∀ snap, single_text (get_battery_status snap))
      ∧ (∀ snap, single_text (scan_ble_devices snap))
      ∧ (∀ repo, single_text (get_status repo))
      ∧ (∀ repo, single_text (get_log repo))
      ∧ (∀ snap, single_text (get_system_info snap))
      ∧ (∀ disks, single_text (get_disk_info disks))
      ∧ (∀ params procs, single_text (get_top_processes params procs))
      ∧ (∀ fetch params, single_text (get_weather fetch params))
      ∧ (∀ fetch params, single_text (get_forecast fetch params))
      ∧ (∀ params procs, single_text (find_process params procs))
      ∧ (∀ params proc, single_text (get_process_details params proc))
      ∧ (∀ procs, single_text (list_processes procs)) := by
  refine ⟨fun d => ?_, fun i => ?_, fun i p => ?_, fun n => ?_, fun u => ?_, fun b => ?_,
    fun s => ?_, fun g => ?_, fun g => ?_, fun s => ⟨_, rfl⟩, fun d => ⟨_, rfl⟩,
    fun p q => ⟨_, rfl⟩, fun f p => ?_, fun f p => ?_, fun p q => ⟨_, rfl⟩,
    fun p q => ?_, fun q => ⟨_, rfl⟩⟩
  · cases d with
    | error e => trivial
    | ok ds => exact ⟨_, rfl⟩
  · cases i with
    | error e => trivial
    | ok s => exact ⟨_, rfl⟩
  · cases i with
    | error e => trivial
    | ok s => exact ⟨_, rfl⟩
  · cases n with
    | error e => trivial
    | ok ifaces => exact ⟨_, rfl⟩
  · cases u with
    | error e => trivial
    | ok devs => exact ⟨_, rfl⟩
  · obtain ⟨mgr, bats⟩ := b
    cases mgr with
    | error e => trivial
    | ok _ =>
      cases bats with
      | error e => trivial
      | ok iter =>
        dsimp only [get_battery_status]
        split
        · exact ⟨_, rfl⟩
        · exact ⟨_, rfl⟩
  · obtain ⟨mgr, adapters⟩ := s
    cases mgr with
    | error e => trivial
    | ok _ =>
      cases adapters with
      | error e => trivial
      | ok adapters =>
        dsimp only [scan_ble_devices]
        split
        · exact ⟨_, rfl⟩
        · split
          · exact ⟨_, rfl⟩
          · trivial
  · cases g with
    | error e => trivial
    | ok snap => exact ⟨_, rfl⟩
  · cases g with
    | error e => trivial
    | ok snap =>
      obtain ⟨head⟩ := snap
      cases head with
      | error e => trivial
      | ok h =>
        dsimp only [get_log]
        split
        · trivial
        · split
          · trivial
          · split
            · trivial
            · exact ⟨_, rfl⟩
  · cases f with
    | error e => trivial
    | ok data =>
      dsimp only [get_weather]
      split
      · trivial
      · exact ⟨_, rfl⟩
  · cases f with
    | error e => trivial
    | ok data => exact ⟨_, rfl⟩
  · cases q with
    | none => trivial
    | some detail =>
      dsimp only [get_process_details]
      split
      · exact ⟨_, rfl⟩
      · trivial
